import Mathlib

/-!
Shallow embedding of the submission-proxy serverless function
(`src/api/submit.js`) and proofs about its behaviour.

The embedding models:
* the in-memory rate-limit ledger and `checkRateLimit` / the periodic sweep,
* the deduplication ledger and `isDuplicate`,
* the two validation rulesets `validateLandingPayload` / `validateScorecardPayload`
  (including JavaScript truthiness and `Number(...)` coercion where the code
  relies on them),
* the manual redirect follower `httpsGet` (HTTP traffic abstracted as an
  oracle from URL to response),
* the main `handler` pipeline (external calls — the relay and the Turnstile
  verification — abstracted as oracles; the relay boundary is modelled at the
  level of the sanitized payload that is serialized into the request URL).

Maps held in JavaScript objects (`rateLimitMap`, `recentSubmissions`) are
modelled as association lists; JavaScript object key lookup is `List.lookup`,
assignment is `setKey`, per-key deletion inside `forEach` is `List.filter`.
-/

set_option maxHeartbeats 1000000
set_option maxRecDepth 8192

namespace SubmitProxy

/-- A JavaScript value, restricted to the shapes the proxy's payload fields
can take: strings, (decimal) numbers, booleans and `null`.  Absent fields
(`undefined`) are modelled as `Option.none` at the use sites. -/
inductive JsValue where
  | vStr (s : String)
  | vNum (q : Rat)
  | vBool (b : Bool)
  | vNull
deriving DecidableEq

/-- JavaScript truthiness for the values of `JsValue`. -/
def jsTruthy : JsValue → Bool
  | .vStr s => s ≠ ""
  | .vNum q => q ≠ 0
  | .vBool b => b
  | .vNull => false

/-- Truthiness of an optional string field (`undefined` and `""` are falsy). -/
def jsTruthyOptStr : Option String → Bool
  | some s => s ≠ ""
  | none => false

/-- Split a character list at every occurrence of a separator character
(the model of JavaScript `String.prototype.split` with a one-character
separator). -/
def splitOnChar (sep : Char) : List Char → List (List Char)
  | [] => [[]]
  | c :: rest =>
    let r := splitOnChar sep rest
    if c = sep then [] :: r
    else
      match r with
      | [] => [[c]]
      | h :: t => (c :: h) :: t

/-- JavaScript `String.prototype.trim`: strip whitespace from both ends. -/
def trimChars (cs : List Char) : List Char :=
  ((cs.dropWhile Char.isWhitespace).reverse.dropWhile Char.isWhitespace).reverse

def digitsToNat (cs : List Char) : Nat :=
  cs.foldl (fun n c => n * 10 + (c.toNat - 48)) 0

/-- JavaScript `Number(...)` on a string, for the decimal literals the proxy
validates: optional sign, digits with at most one decimal point; the empty /
all-whitespace string coerces to `0`; anything else is `NaN`, modelled as
`none`.  (Exponent and radix-prefixed forms are outside the model.) -/
def jsStringToNumber (s : String) : Option Rat :=
  let t := trimChars s.toList
  if t = [] then some 0
  else
    let neg := t.headD ' ' = '-'
    let u := if neg || t.headD ' ' = '+' then t.drop 1 else t
    match splitOnChar '.' u with
    | [a] =>
      if a ≠ [] && a.all Char.isDigit then
        let mag : Rat := (digitsToNat a : Nat)
        some (if neg then -mag else mag)
      else none
    | [a, b] =>
      if (a ≠ [] || b ≠ []) && a.all Char.isDigit && b.all Char.isDigit then
        let mag : Rat := (digitsToNat a : Rat) + (digitsToNat b : Rat) / ((10 : Rat) ^ b.length)
        some (if neg then -mag else mag)
      else none
    | _ => none

/-- JavaScript `Number(...)` coercion; `none` models `NaN`. -/
def toNumber : JsValue → Option Rat
  | .vNum q => some q
  | .vStr s => jsStringToNumber s
  | .vBool b => some (if b then 1 else 0)
  | .vNull => some 0

/-- The submission payload (`req.body`): every field the code reads.
`none` models an absent (`undefined`) property. -/
structure Payload where
  action : Option String := none
  submission_id : Option String := none
  turnstileToken : Option String := none
  email : Option JsValue := none
  exit_score : Option JsValue := none
  pillar_revenue : Option JsValue := none
  pillar_moat : Option JsValue := none
  pillar_economics : Option JsValue := none
  pillar_leverage : Option JsValue := none
  pillar_governance : Option JsValue := none
  segment : Option JsValue := none
  source : Option JsValue := none
  landing_url : Option JsValue := none
  utm_source : Option JsValue := none
  utm_medium : Option JsValue := none
  utm_campaign : Option JsValue := none
  utm_content : Option JsValue := none
  utm_term : Option JsValue := none
  company : Option JsValue := none
  industry : Option JsValue := none
  role : Option JsValue := none
  revenue : Option JsValue := none
  exitHorizon : Option JsValue := none
  assessor : Option JsValue := none
  rating : Option JsValue := none
deriving DecidableEq

/-- Dynamic property access `payload[field]` for the field names the
validators iterate over. -/
def getField (p : Payload) (name : String) : Option JsValue :=
  if name = "pillar_revenue" then p.pillar_revenue
  else if name = "pillar_moat" then p.pillar_moat
  else if name = "pillar_economics" then p.pillar_economics
  else if name = "pillar_leverage" then p.pillar_leverage
  else if name = "pillar_governance" then p.pillar_governance
  else if name = "source" then p.source
  else if name = "landing_url" then p.landing_url
  else if name = "utm_source" then p.utm_source
  else if name = "utm_medium" then p.utm_medium
  else if name = "utm_campaign" then p.utm_campaign
  else if name = "utm_content" then p.utm_content
  else if name = "utm_term" then p.utm_term
  else if name = "company" then p.company
  else if name = "industry" then p.industry
  else if name = "role" then p.role
  else if name = "revenue" then p.revenue
  else if name = "exitHorizon" then p.exitHorizon
  else if name = "assessor" then p.assessor
  else if name = "rating" then p.rating
  else none

/-- The regular expression test of `validateLandingPayload`:
a nonempty run without whitespace or at-sign, one at-sign, and after it a
dot with a nonempty such run on each side. -/
def emailFormatOk (s : String) : Bool :=
  match splitOnChar '@' s.toList with
  | [la, lr] =>
    la ≠ [] && la.all (fun c => !c.isWhitespace) &&
    lr ≠ [] && lr.all (fun c => !c.isWhitespace) &&
    (List.range lr.length).any (fun p =>
      (lr[p]? == some '.') && decide (1 ≤ p) && decide (p + 1 < lr.length))
  | _ => false

/-- The check `payload[field] && typeof payload[field] === 'string' &&
payload[field].length > limit` shared by both validators' string-length
loops. -/
def isLongString (v : JsValue) (limit : Nat) : Bool :=
  match v with
  | .vStr s => s ≠ "" && decide (s.length > limit)
  | _ => false

/-- One step of the string-length `forEach` loop: the violations contributed
by a single field name. -/
def strFieldErr (p : Payload) (limit : Nat) (name : String) : List String :=
  match getField p name with
  | some v => if isLongString v limit then [name ++ " too long"] else []
  | none => []

/-- The string-length `forEach` loop over a list of field names. -/
def stringFieldErrors (p : Payload) (limit : Nat) (names : List String) : List String :=
  names.foldr (fun name acc => strFieldErr p limit name ++ acc) []

def landingStringFieldNames : List String :=
  ["source", "landing_url", "utm_source", "utm_medium", "utm_campaign",
   "utm_content", "utm_term"]

/-- `validateLandingPayload` from the source: required well-formed email,
then the 500-character limit loop over the optional string fields. -/
def validateLandingPayload (p : Payload) : List String :=
  (match p.email with
   | some (.vStr s) =>
     if s = "" then ["missing email"]
     else if decide (s.length > 254) then ["email too long"]
     else if !emailFormatOk s then ["invalid email format"]
     else []
   | some _ => ["missing email"]
   | none => ["missing email"])
  ++ stringFieldErrors p 500 landingStringFieldNames

/-- The scorecard email check: `payload.email && typeof payload.email ===
'string' && payload.email.length > 254`. -/
def scorecardEmailErrors (p : Payload) : List String :=
  match p.email with
  | some (.vStr s) => if s ≠ "" && decide (s.length > 254) then ["email too long"] else []
  | _ => []

/-- The `exit_score` check: present (`!== undefined`), coerced with
`Number(...)`, must land in `[0, 100]`. -/
def scoreErrors (p : Payload) : List String :=
  match p.exit_score with
  | none => []
  | some v =>
    match toNumber v with
    | none => ["invalid score"]
    | some q => if q < 0 || q > 100 then ["invalid score"] else []

def pillarNames : List String :=
  ["pillar_revenue", "pillar_moat", "pillar_economics", "pillar_leverage",
   "pillar_governance"]

/-- One step of the pillar-score `forEach` loop: present field coerced with
`Number(...)` must land in `[0, 20]`. -/
def pillarErr (p : Payload) (name : String) : List String :=
  match getField p name with
  | none => []
  | some v =>
    match toNumber v with
    | none => ["invalid " ++ name]
    | some q => if q < 0 || q > 20 then ["invalid " ++ name] else []

def pillarErrors (p : Payload) : List String :=
  pillarNames.foldr (fun name acc => pillarErr p name ++ acc) []

def validSegments : List String := ["A", "B", "C", "D", "F"]

/-- `validSegments.indexOf(payload.segment) !== -1`: strict equality against
an array of strings, so only a string value can be found. -/
def isKnownSegment (v : JsValue) : Bool :=
  match v with
  | .vStr s => validSegments.contains s
  | _ => false

/-- The segment check: `payload.segment && validSegments.indexOf(...) === -1`. -/
def segmentErrors (p : Payload) : List String :=
  match p.segment with
  | some v => if jsTruthy v && !isKnownSegment v then ["invalid segment"] else []
  | none => []

def scorecardStringFieldNames : List String :=
  ["company", "industry", "role", "revenue", "exitHorizon", "assessor", "rating"]

/-- `validateScorecardPayload` from the source, as the concatenation of its
checks in source order. -/
def validateScorecardPayload (p : Payload) : List String :=
  scorecardEmailErrors p ++ scoreErrors p ++ pillarErrors p ++ segmentErrors p
    ++ stringFieldErrors p 300 scorecardStringFieldNames

/-- Replace the value at a key of a JavaScript-object-as-association-list,
appending when absent (property assignment `obj[k] = v`). -/
def setKey {α : Type} (k : String) (v : α) : List (String × α) → List (String × α)
  | [] => [(k, v)]
  | (k₂, v₂) :: rest => if k₂ = k then (k, v) :: rest else (k₂, v₂) :: setKey k v rest

/-- An entry of `rateLimitMap`: requests counted in the current window and
the window expiry timestamp. -/
structure RateEntry where
  count : Nat
  resetAt : Nat
deriving DecidableEq

abbrev RateMap := List (String × RateEntry)

def RATE_LIMIT_WINDOW : Nat := 60 * 1000

def RATE_LIMIT_MAX : Nat := 10

/-- `checkRateLimit` from the source: open a window on first sight or after
expiry, otherwise increment and admit while the count stays at or under the
ceiling.  Time is passed explicitly (`Date.now()`). -/
def checkRateLimit (ip : String) (now : Nat) (m : RateMap) : Bool × RateMap :=
  match m.lookup ip with
  | none => (true, setKey ip ⟨1, now + RATE_LIMIT_WINDOW⟩ m)
  | some e =>
    if now > e.resetAt then (true, setKey ip ⟨1, now + RATE_LIMIT_WINDOW⟩ m)
    else (decide (e.count + 1 ≤ RATE_LIMIT_MAX), setKey ip ⟨e.count + 1, e.resetAt⟩ m)

/-- The periodic `setInterval` sweep: delete every entry whose window has
already expired. -/
def sweepRateLimit (now : Nat) (m : RateMap) : RateMap :=
  m.filter (fun e => decide (now ≤ e.2.resetAt))

/-- A sequence of `checkRateLimit` calls for one client, one call per listed
timestamp; returns the admit/deny decisions in order with the final map. -/
def runRate (ip : String) (m : RateMap) : List Nat → List Bool × RateMap
  | [] => ([], m)
  | t :: ts =>
    let r := checkRateLimit ip t m
    let rest := runRate ip r.snd ts
    (r.fst :: rest.fst, rest.snd)

abbrev DedupMap := List (String × Nat)

def DEDUP_WINDOW : Nat := 5 * 60 * 1000

/-- The clean-old-entries loop at the top of `isDuplicate`. -/
def purgeDedup (now : Nat) (m : DedupMap) : DedupMap :=
  m.filter (fun e => decide (now - e.2 ≤ DEDUP_WINDOW))

/-- `isDuplicate` from the source: purge stale entries, answer `true` when a
(truthy) first-seen timestamp for the id survives, otherwise record `now`.
The stored timestamp is consulted with JavaScript truthiness, hence the
`ts ≠ 0` test. -/
def isDuplicate (id : String) (now : Nat) (m : DedupMap) : Bool × DedupMap :=
  if id = "" then (false, m)
  else
    let m₁ := purgeDedup now m
    match m₁.lookup id with
    | some ts => if ts ≠ 0 then (true, m₁) else (false, setKey id now m₁)
    | none => (false, setKey id now m₁)

/-- What `httpsGet` reads off `new URL(targetUrl)`: the protocol (with its
trailing colon), the hostname, and the path plus query string. -/
structure ParsedUrl where
  protocol : String
  hostname : String
  pathSearch : String
deriving DecidableEq

/-- Break a character list at the first occurrence of `"//"`. -/
def breakOnSlashSlash : List Char → Option (List Char × List Char)
  | [] => none
  | '/' :: '/' :: rest => some ([], rest)
  | c :: rest => (breakOnSlashSlash rest).map (fun pr => (c :: pr.1, pr.2))

/-- A model of `new URL` for absolute `scheme://host/path?search` strings,
sufficient for the fields `httpsGet` uses: the protocol is everything before
the first `"//"`, the hostname runs to the next slash, the rest is path and
query. -/
def parseUrl (u : String) : ParsedUrl :=
  match breakOnSlashSlash u.toList with
  | none => ⟨u, "", ""⟩
  | some pr =>
    let host := pr.2.takeWhile (fun c => c ≠ '/')
    ⟨String.mk pr.1, String.mk host, String.mk (pr.2.drop host.length)⟩

/-- One HTTP response as `httpsGet` observes it: status code, the optional
`Location` header, and the collected body. -/
structure RelayResponse where
  statusCode : Nat
  location : Option String
  body : String
deriving DecidableEq

def isRedirectStatus (sc : Nat) : Bool :=
  sc = 301 || sc = 302 || sc = 303 || sc = 307

/-- `redirectUrl.startsWith('/')`. -/
def startsWithSlash (loc : String) : Bool :=
  match loc.toList with
  | c :: _ => c = '/'
  | [] => false

/-- Resolution of a `Location` header against the current request:
leading-slash locations are prefixed with the current scheme and host. -/
def resolveLoc (parsed : ParsedUrl) (loc : String) : String :=
  if startsWithSlash loc then parsed.protocol ++ "//" ++ parsed.hostname ++ loc else loc

/-- Does the response trigger the manual redirect branch
(`(301|302|303|307) && response.headers.location` truthy)? -/
def wantsRedirect (r : RelayResponse) : Bool :=
  match r.location with
  | some loc => isRedirectStatus r.statusCode && loc ≠ ""
  | none => false

/-- `httpsGet` from the source, with the network abstracted as an oracle
from URL to response.  A redirect response is followed by recursing on the
resolved location with the budget decremented; a redirect seen with the
budget exhausted rejects; any other response resolves with status code and
body verbatim.  Rejections are `Except.error`. -/
def httpsGet (server : String → RelayResponse) (targetUrl : String)
    (maxRedirects : Nat := 5) : Except String (Nat × String) :=
  let parsed := parseUrl targetUrl
  let response := server targetUrl
  match response.location with
  | some loc =>
    if isRedirectStatus response.statusCode && loc ≠ "" then
      match maxRedirects with
      | 0 => Except.error "Too many redirects"
      | n + 1 => httpsGet server (resolveLoc parsed loc) n
    else Except.ok (response.statusCode, response.body)
  | none => Except.ok (response.statusCode, response.body)

inductive HttpMethod where
  | get
  | post
  | options
  | other
deriving DecidableEq

/-- The parts of the inbound request the handler reads. -/
structure Request where
  method : HttpMethod
  xForwardedFor : String
  body : Option Payload
deriving DecidableEq

/-- `(req.headers['x-forwarded-for'] || '').split(',')[0].trim() || 'unknown'`. -/
def clientIp (xff : String) : String :=
  let s := trimChars ((splitOnChar ',' xff.toList).headD [])
  if s = [] then "unknown" else String.mk s

/-- The JSON bodies the handler can reply with, one constructor per reply
site in the source. -/
inductive ResBody where
  | emptyBody
  | errorMsg (msg : String)
  | validationFailed (details : List String)
  | dupBody
  | parsedBody (raw : String)
  | configErrorBody
  | forwardedBody (httpStatus : Nat)
deriving DecidableEq

/-- The process-local mutable state: the rate-limit ledger and the
deduplication ledger. -/
structure ProxyState where
  rateLimitMap : RateMap
  recentSubmissions : DedupMap
deriving DecidableEq

/-- What one handler invocation produced: HTTP status and body sent to the
caller, the ledgers afterwards, and the sanitized payload handed to the
relay (`none` when no relay call was issued). -/
structure HandlerOutcome where
  status : Nat
  body : ResBody
  state : ProxyState
  relayed : Option Payload
deriving DecidableEq

/-- The duplicate-check step of the handler:
`payload.submission_id && isDuplicate(payload.submission_id)` — the
short-circuit means the ledger is only touched for a truthy id. -/
def dupStep (p : Payload) (now : Nat) (m : DedupMap) : Bool × DedupMap :=
  match p.submission_id with
  | some sid => if sid ≠ "" then isDuplicate sid now m else (false, m)
  | none => (false, m)

/-- The validation dispatch on `payload.action`: `none` models falling into
the unknown-action branch. -/
def actionValidation (p : Payload) : Option (List String) :=
  if p.action = some "landing" then some (validateLandingPayload p)
  else if p.action = some "scorecard" then some (validateScorecardPayload p)
  else none

/-- The sanitizing `delete payload.turnstileToken` before the relay. -/
def sanitizePayload (p : Payload) : Payload :=
  { p with turnstileToken := none }

/-- Is the first list a prefix of the second? -/
def leadsList : List Char → List Char → Bool
  | [], _ => true
  | _ :: _, [] => false
  | a :: as, b :: bs => a = b && leadsList as bs

/-- Does the pattern occur anywhere in the list (JavaScript
`indexOf(...) !== -1` on strings)? -/
def containsSeq (pat : List Char) : List Char → Bool
  | [] => leadsList pat []
  | c :: rest => leadsList pat (c :: rest) || containsSeq pat rest

/-- Does the relay body carry the Google sign-in marker
(`body.indexOf('accounts.google.com') !== -1`)? -/
def containsMarker (body : String) : Bool :=
  containsSeq "accounts.google.com".toList body.toList

/-- The main `handler` from the source.  External effects are parameters:
`secret` is `TURNSTILE_SECRET`, `turnstileOk` the verdict `verifyTurnstile`
would resolve with, `relay` the composed relay call (URL building,
`httpsGet` and body collection) keyed by the sanitized payload it would
serialize, `parsesAsJson` whether `JSON.parse` succeeds on a body, and
`now` is `Date.now()`. -/
def handler (secret : String) (turnstileOk : Bool)
    (relay : Payload → Except String (Nat × String))
    (parsesAsJson : String → Bool)
    (now : Nat) (req : Request) (st : ProxyState) : HandlerOutcome :=
  if req.method = HttpMethod.options then ⟨200, .emptyBody, st, none⟩
  else if req.method ≠ HttpMethod.post then ⟨405, .errorMsg "Method not allowed", st, none⟩
  else
    let ip := clientIp req.xForwardedFor
    let rl := checkRateLimit ip now st.rateLimitMap
    let st₁ : ProxyState := ⟨rl.snd, st.recentSubmissions⟩
    if rl.fst = false then
      ⟨429, .errorMsg "Too many requests. Please try again later.", st₁, none⟩
    else
      match req.body with
      | none => ⟨400, .errorMsg "Missing payload or action", st₁, none⟩
      | some payload =>
        if jsTruthyOptStr payload.action = false then
          ⟨400, .errorMsg "Missing payload or action", st₁, none⟩
        else
          let dup := dupStep payload now st₁.recentSubmissions
          let st₂ : ProxyState := ⟨st₁.rateLimitMap, dup.snd⟩
          if dup.fst then ⟨200, .dupBody, st₂, none⟩
          else
            match actionValidation payload with
            | none => ⟨400, .errorMsg "Unknown action", st₂, none⟩
            | some validationErrors =>
              if validationErrors.length > 0 then
                ⟨400, .validationFailed validationErrors, st₂, none⟩
              else if payload.action = some "landing" && secret ≠ "" && !turnstileOk then
                ⟨403, .errorMsg "Bot verification failed. Please try again.", st₂, none⟩
              else
                let sanitized := sanitizePayload payload
                match relay sanitized with
                | .error _ => ⟨500, .errorMsg "Server error", st₂, some sanitized⟩
                | .ok r =>
                  if parsesAsJson r.snd then ⟨200, .parsedBody r.snd, st₂, some sanitized⟩
                  else if containsMarker r.snd then ⟨200, .configErrorBody, st₂, some sanitized⟩
                  else ⟨200, .forwardedBody r.fst, st₂, some sanitized⟩

/-- The field list `JSON.stringify` serializes for a payload: every present
property with its value; string-typed properties are serialized as JSON
strings. -/
def serializeFields (p : Payload) : List (String × JsValue) :=
  (match p.action with | some x => [("action", JsValue.vStr x)] | none => []) ++
  (match p.submission_id with | some x => [("submission_id", JsValue.vStr x)] | none => []) ++
  (match p.turnstileToken with | some x => [("turnstileToken", JsValue.vStr x)] | none => []) ++
  (match p.email with | some x => [("email", x)] | none => []) ++
  (match p.exit_score with | some x => [("exit_score", x)] | none => []) ++
  (match p.pillar_revenue with | some x => [("pillar_revenue", x)] | none => []) ++
  (match p.pillar_moat with | some x => [("pillar_moat", x)] | none => []) ++
  (match p.pillar_economics with | some x => [("pillar_economics", x)] | none => []) ++
  (match p.pillar_leverage with | some x => [("pillar_leverage", x)] | none => []) ++
  (match p.pillar_governance with | some x => [("pillar_governance", x)] | none => []) ++
  (match p.segment with | some x => [("segment", x)] | none => []) ++
  (match p.source with | some x => [("source", x)] | none => []) ++
  (match p.landing_url with | some x => [("landing_url", x)] | none => []) ++
  (match p.utm_source with | some x => [("utm_source", x)] | none => []) ++
  (match p.utm_medium with | some x => [("utm_medium", x)] | none => []) ++
  (match p.utm_campaign with | some x => [("utm_campaign", x)] | none => []) ++
  (match p.utm_content with | some x => [("utm_content", x)] | none => []) ++
  (match p.utm_term with | some x => [("utm_term", x)] | none => []) ++
  (match p.company with | some x => [("company", x)] | none => []) ++
  (match p.industry with | some x => [("industry", x)] | none => []) ++
  (match p.role with | some x => [("role", x)] | none => []) ++
  (match p.revenue with | some x => [("revenue", x)] | none => []) ++
  (match p.exitHorizon with | some x => [("exitHorizon", x)] | none => []) ++
  (match p.assessor with | some x => [("assessor", x)] | none => []) ++
  (match p.rating with | some x => [("rating", x)] | none => [])

/-! ### Helper lemmas about the association-list ledgers -/

theorem lookup_setKey_self {α : Type} (k : String) (v : α) :
    ∀ m : List (String × α), (setKey k v m).lookup k = some v := by
  intro m
  induction m with
  | nil => simp [setKey, List.lookup]
  | cons h t ih =>
    obtain ⟨k₂, v₂⟩ := h
    by_cases hk : k₂ = k
    · subst hk
      simp [setKey, List.lookup]
    · have hne : (k == k₂) = false := by
        simp [beq_eq_false_iff_ne]
        exact fun hh => hk hh.symm
      simp [setKey, hk, List.lookup, hne, ih]

theorem lookup_setKey_other {α : Type} (k k₃ : String) (v : α) (hk : k₃ ≠ k) :
    ∀ m : List (String × α), (setKey k v m).lookup k₃ = m.lookup k₃ := by
  have hb : (k₃ == k) = false := beq_eq_false_iff_ne.mpr hk
  intro m
  induction m with
  | nil => simp [setKey, List.lookup, hb]
  | cons h t ih =>
    obtain ⟨k₂, v₂⟩ := h
    by_cases hk₂ : k₂ = k
    · subst hk₂
      simp [setKey, List.lookup, hb]
    · simp [setKey, hk₂, List.lookup, ih]

theorem lookup_filter_keep {α : Type} (p : String × α → Bool) (k : String) (v : α) :
    ∀ m : List (String × α), m.lookup k = some v → p (k, v) = true →
      (m.filter p).lookup k = some v := by
  intro m
  induction m with
  | nil => simp [List.lookup]
  | cons h t ih =>
    obtain ⟨k₂, v₂⟩ := h
    intro hl hp
    by_cases hk : k = k₂
    · subst hk
      simp [List.lookup] at hl
      subst hl
      simp [List.filter, hp, List.lookup]
    · have hne : (k == k₂) = false := by simp [beq_eq_false_iff_ne, hk]
      simp [List.lookup, hne] at hl
      cases hpk : p (k₂, v₂) <;> simp [List.filter, hpk, List.lookup, hne, ih hl hp]

theorem mem_foldr_append {α : Type} (f : α → List String) (x : String) :
    ∀ names : List α, (x ∈ names.foldr (fun n acc => f n ++ acc) []) ↔ ∃ n ∈ names, x ∈ f n := by
  intro names
  induction names with
  | nil => simp
  | cons h t ih => simp [List.foldr_cons, ih]

/-! ### Helper lemmas about `checkRateLimit` sequences -/

theorem checkRateLimit_fresh (ip : String) (now : Nat) (m : RateMap)
    (h : m.lookup ip = none) :
    checkRateLimit ip now m = (true, setKey ip ⟨1, now + RATE_LIMIT_WINDOW⟩ m) := by
  simp [checkRateLimit, h]

theorem checkRateLimit_within (ip : String) (now : Nat) (m : RateMap) (e : RateEntry)
    (h : m.lookup ip = some e) (hw : ¬ now > e.resetAt) :
    checkRateLimit ip now m =
      (decide (e.count + 1 ≤ RATE_LIMIT_MAX), setKey ip ⟨e.count + 1, e.resetAt⟩ m) := by
  simp [checkRateLimit, h, hw]

theorem runRate_within (ip : String) (r : Nat) :
    ∀ (ts : List Nat) (m : RateMap) (c : Nat), m.lookup ip = some ⟨c, r⟩ →
      (∀ t ∈ ts, t ≤ r) →
      (runRate ip m ts).fst =
        (List.range ts.length).map (fun k => decide (c + 1 + k ≤ RATE_LIMIT_MAX)) := by
  intro ts
  induction ts with
  | nil => simp [runRate]
  | cons t ts ih =>
    intro m c hm hts
    have hw : ¬ t > r := by
      have := hts t (by simp)
      omega
    have hstep := checkRateLimit_within ip t m ⟨c, r⟩ hm hw
    have hm₂ : (setKey ip ⟨c + 1, r⟩ m).lookup ip = some ⟨c + 1, r⟩ :=
      lookup_setKey_self ip ⟨c + 1, r⟩ m
    have hrest := ih (setKey ip ⟨c + 1, r⟩ m) (c + 1) hm₂
      (fun t₂ ht₂ => hts t₂ (by simp [ht₂]))
    simp only [runRate, hstep, hrest, List.length_cons, List.range_succ_eq_map,
      List.map_cons, List.map_map]
    congr 1
    apply List.map_congr_left
    intro k _
    simp only [Function.comp_apply]
    exact decide_eq_decide.mpr (by omega)

theorem runRate_fresh (ip : String) (m : RateMap) (t0 : Nat) (ts : List Nat)
    (hfresh : m.lookup ip = none)
    (hwin : ∀ t ∈ ts, t ≤ t0 + RATE_LIMIT_WINDOW) :
    (runRate ip m (t0 :: ts)).fst =
      (List.range (ts.length + 1)).map (fun k => decide (k + 1 ≤ RATE_LIMIT_MAX)) := by
  have hstep := checkRateLimit_fresh ip t0 m hfresh
  have hm₂ := lookup_setKey_self ip (⟨1, t0 + RATE_LIMIT_WINDOW⟩ : RateEntry) m
  have hrest := runRate_within ip (t0 + RATE_LIMIT_WINDOW) ts
    (setKey ip ⟨1, t0 + RATE_LIMIT_WINDOW⟩ m) 1 hm₂ hwin
  simp only [runRate, hstep, hrest, List.length_cons, List.range_succ_eq_map,
    List.map_cons, List.map_map]
  refine congrArg₂ List.cons ?_ ?_
  · simp [RATE_LIMIT_MAX]
  · apply List.map_congr_left
    intro k _
    simp only [Function.comp_apply]
    exact decide_eq_decide.mpr (by omega)

theorem count_admits (n : Nat) :
    (((List.range n).map (fun k => decide (k + 1 ≤ RATE_LIMIT_MAX))).count true) =
      min n RATE_LIMIT_MAX := by
  induction n with
  | zero => simp
  | succ n ih =>
    by_cases hn : n + 1 ≤ RATE_LIMIT_MAX
    · simp [List.range_succ, ih, hn]
      omega
    · simp [List.range_succ, ih, hn]
      omega

theorem mem_sweep (now : Nat) (m : RateMap) (k : String) (e : RateEntry) :
    (k, e) ∈ sweepRateLimit now m ↔ (k, e) ∈ m ∧ now ≤ e.resetAt := by
  simp [sweepRateLimit, List.mem_filter]

theorem handler_429_only_on_deny (secret : String) (tOk : Bool)
    (relay : Payload → Except String (Nat × String)) (parses : String → Bool)
    (now : Nat) (req : Request) (st : ProxyState)
    (h : (handler secret tOk relay parses now req st).status = 429) :
    (checkRateLimit (clientIp req.xForwardedFor) now st.rateLimitMap).fst = false := by
  simp only [handler] at h
  repeat' split at h
  all_goals simp_all

/-! ### Claim theorems -/

/-- Claim C1: for a client with no live rate-limit entry, the decisions over
any sequence of requests inside one 60-second window are admit for the first
`RATE_LIMIT_MAX = 10` requests and deny for the 11th and every later one;
a denied request is answered 429 with the too-many-requests message and no
relay call, and an admitted request is never answered 429. -/
theorem c1_rate_limit_window (ip : String) (m : RateMap) (t0 : Nat) (ts : List Nat)
    (hfresh : m.lookup ip = none)
    (hwin : ∀ t ∈ ts, t ≤ t0 + RATE_LIMIT_WINDOW) :
    (runRate ip m (t0 :: ts)).fst =
      (List.range (ts.length + 1)).map (fun k => decide (k + 1 ≤ RATE_LIMIT_MAX)) ∧
    (∀ (secret : String) (tOk : Bool) (relay : Payload → Except String (Nat × String))
        (parses : String → Bool) (now : Nat) (req : Request) (st : ProxyState),
      req.method = HttpMethod.post →
      (checkRateLimit (clientIp req.xForwardedFor) now st.rateLimitMap).fst = false →
      handler secret tOk relay parses now req st =
        ⟨429, .errorMsg "Too many requests. Please try again later.",
          ⟨(checkRateLimit (clientIp req.xForwardedFor) now st.rateLimitMap).snd,
            st.recentSubmissions⟩, none⟩) ∧
    (∀ (secret : String) (tOk : Bool) (relay : Payload → Except String (Nat × String))
        (parses : String → Bool) (now : Nat) (req : Request) (st : ProxyState),
      (checkRateLimit (clientIp req.xForwardedFor) now st.rateLimitMap).fst = true →
      (handler secret tOk relay parses now req st).status ≠ 429) := by
  refine ⟨runRate_fresh ip m t0 ts hfresh hwin, ?_, ?_⟩
  · intro secret tOk relay parses now req st hpost hdeny
    simp [handler, hpost, hdeny]
  · intro secret tOk relay parses now req st hok h429
    have := handler_429_only_on_deny secret tOk relay parses now req st h429
    simp [hok] at this

/-- Claim C1, instantiated: eleven same-window requests from a fresh client
give ten admits then a deny, and a denied request is answered 429. -/
theorem c1_rate_limit_window_witness :
    (runRate "203.0.113.5" [] (5 :: List.replicate 10 5)).fst =
      [true, true, true, true, true, true, true, true, true, true, false] ∧
    (handler "" true (fun _ => Except.ok (200, "ok")) (fun _ => true) 5
        ⟨HttpMethod.post, "203.0.113.5", some { action := some "scorecard" }⟩
        ⟨[("203.0.113.5", ⟨10, 60005⟩)], []⟩).status = 429 := by
  have h := c1_rate_limit_window "203.0.113.5" [] 5 (List.replicate 10 5) (by decide)
    (fun t ht => by simp at ht; omega)
  constructor
  · rw [h.1]
    decide
  · rw [h.2.1 "" true (fun _ => Except.ok (200, "ok")) (fun _ => true) 5
      ⟨HttpMethod.post, "203.0.113.5", some { action := some "scorecard" }⟩
      ⟨[("203.0.113.5", ⟨10, 60005⟩)], []⟩ rfl (by decide)]

/-- Claim C7, counterexample: after eleven requests at time 0 from a fresh
client the stored count is 11, strictly above the ceiling of 10, although
the entry's window (expiring at 60000) is still active — the stored count
does exceed the ceiling inside an active window. -/
theorem c7_stored_count_counterexample :
    (runRate "198.51.100.9" [] (List.replicate 11 0)).snd.lookup "198.51.100.9" =
      some ⟨11, RATE_LIMIT_WINDOW⟩ ∧
    RATE_LIMIT_MAX < 11 ∧ 0 ≤ RATE_LIMIT_WINDOW := by
  refine ⟨by decide, by decide, by decide⟩

/-- Claim C7 (amended): in any window the number of admitted requests never
exceeds the ceiling (although the stored count keeps incrementing past it),
and the periodic sweep removes exactly the entries whose window has
expired. -/
theorem c7_admitted_bound_and_sweep (ip : String) (m : RateMap) (t0 : Nat) (ts : List Nat)
    (hfresh : m.lookup ip = none)
    (hwin : ∀ t ∈ ts, t ≤ t0 + RATE_LIMIT_WINDOW) :
    (runRate ip m (t0 :: ts)).fst.count true ≤ RATE_LIMIT_MAX ∧
    (∀ (now : Nat) (m₂ : RateMap) (k : String) (e : RateEntry),
      (k, e) ∈ sweepRateLimit now m₂ ↔ (k, e) ∈ m₂ ∧ now ≤ e.resetAt) := by
  constructor
  · rw [runRate_fresh ip m t0 ts hfresh hwin, count_admits]
    omega
  · exact mem_sweep

/-- Claim C7 (amended), instantiated: twelve same-window requests admit at
most ten, and the sweep keeps a live entry while dropping an expired one. -/
theorem c7_admitted_bound_and_sweep_witness :
    (runRate "a" [] (0 :: List.replicate 11 0)).fst.count true ≤ RATE_LIMIT_MAX ∧
    (("b", (⟨3, 10⟩ : RateEntry)) ∈ sweepRateLimit 20 [("b", ⟨3, 10⟩)] ↔
      ("b", (⟨3, 10⟩ : RateEntry)) ∈ [("b", (⟨3, 10⟩ : RateEntry))] ∧ 20 ≤ 10) := by
  have h := c7_admitted_bound_and_sweep "a" [] 0 (List.replicate 11 0) (by decide)
    (fun t ht => by simp at ht; omega)
  exact ⟨h.1, h.2 20 [("b", ⟨3, 10⟩)] "b" ⟨3, 10⟩⟩

/-- Claim C2: before each lookup `isDuplicate` purges exactly the entries
older than the 5-minute retention window; an id found (with a truthy
timestamp) in the purged ledger makes the handler short-circuit with
HTTP 200, the duplicate body and no relay call; an id not found is recorded
with the current timestamp and the pipeline continues (the response is not
the duplicate body). -/
theorem c2_duplicate_suppression (sid : String) (now : Nat) (hsid : sid ≠ "") :
    (∀ (m : DedupMap) (ts : Nat), (purgeDedup now m).lookup sid = some ts → ts ≠ 0 →
      isDuplicate sid now m = (true, purgeDedup now m)) ∧
    (∀ m : DedupMap, (purgeDedup now m).lookup sid = none →
      isDuplicate sid now m = (false, setKey sid now (purgeDedup now m))) ∧
    (∀ (m : DedupMap) (k : String) (v : Nat),
      (k, v) ∈ purgeDedup now m ↔ (k, v) ∈ m ∧ now - v ≤ DEDUP_WINDOW) ∧
    (∀ (secret : String) (tOk : Bool) (relay : Payload → Except String (Nat × String))
        (parses : String → Bool) (req : Request) (st : ProxyState) (payload : Payload),
      req.method = HttpMethod.post →
      (checkRateLimit (clientIp req.xForwardedFor) now st.rateLimitMap).fst = true →
      req.body = some payload →
      jsTruthyOptStr payload.action = true →
      payload.submission_id = some sid →
      (isDuplicate sid now st.recentSubmissions).fst = true →
      handler secret tOk relay parses now req st =
        ⟨200, .dupBody, ⟨(checkRateLimit (clientIp req.xForwardedFor) now st.rateLimitMap).snd,
          (isDuplicate sid now st.recentSubmissions).snd⟩, none⟩) ∧
    (∀ (secret : String) (tOk : Bool) (relay : Payload → Except String (Nat × String))
        (parses : String → Bool) (req : Request) (st : ProxyState) (payload : Payload),
      req.method = HttpMethod.post →
      (checkRateLimit (clientIp req.xForwardedFor) now st.rateLimitMap).fst = true →
      req.body = some payload →
      jsTruthyOptStr payload.action = true →
      payload.submission_id = some sid →
      (isDuplicate sid now st.recentSubmissions).fst = false →
      (handler secret tOk relay parses now req st).state.recentSubmissions =
        (isDuplicate sid now st.recentSubmissions).snd ∧
      (handler secret tOk relay parses now req st).body ≠ ResBody.dupBody) := by
  refine ⟨?_, ?_, ?_, ?_, ?_⟩
  · intro m ts hl hts
    simp [isDuplicate, hsid, hl, hts]
  · intro m hl
    simp [isDuplicate, hsid, hl]
  · intro m k v
    simp [purgeDedup, List.mem_filter]
  · intro secret tOk relay parses req st payload hpost hrate hbody hact hsub hdup
    simp [handler, hpost, hrate, hbody, hact, dupStep, hsub, hsid, hdup]
  · intro secret tOk relay parses req st payload hpost hrate hbody hact hsub hdup
    simp only [handler, hpost, hrate, hbody, hact, dupStep, hsub, hsid]
    constructor
    · repeat' split
      all_goals simp_all [dupStep, hsub, hsid]
    · repeat' split
      all_goals simp_all [dupStep, hsub, hsid]

/-- Claim C2, instantiated: an id recorded 100ms ago is reported duplicate
and the handler answers 200 with the duplicate body, touching no relay. -/
theorem c2_duplicate_suppression_witness :
    isDuplicate "sub-1" 1000 [("sub-1", 900)] = (true, [("sub-1", 900)]) ∧
    handler "" true (fun _ => Except.ok (200, "ok")) (fun _ => true) 1000
      ⟨HttpMethod.post, "1.2.3.4",
        some { action := some "scorecard", submission_id := some "sub-1" }⟩
      ⟨[], [("sub-1", 900)]⟩ =
      ⟨200, .dupBody, ⟨[("1.2.3.4", ⟨1, 61000⟩)], [("sub-1", 900)]⟩, none⟩ := by
  have h := c2_duplicate_suppression "sub-1" 1000 (by decide)
  constructor
  · exact h.1 [("sub-1", 900)] 900 (by decide) (by decide)
  · have h4 := h.2.2.2.1 "" true (fun _ => Except.ok (200, "ok")) (fun _ => true)
      ⟨HttpMethod.post, "1.2.3.4",
        some { action := some "scorecard", submission_id := some "sub-1" }⟩
      ⟨[], [("sub-1", 900)]⟩
      { action := some "scorecard", submission_id := some "sub-1" }
      rfl (by decide) rfl (by decide) rfl (by decide)
    rw [h4]
    decide

theorem mem_entryOptStr {x name : String} {v : Option String} :
    (x ∈ (match v with
      | some s => [(name, JsValue.vStr s)]
      | none => ([] : List (String × JsValue))).map Prod.fst) ↔
      (∃ b, v = some b) ∧ x = name := by
  cases v <;> simp

theorem mem_entryOpt {x name : String} {v : Option JsValue} :
    (x ∈ (match v with
      | some b => [(name, b)]
      | none => ([] : List (String × JsValue))).map Prod.fst) ↔
      (∃ b, v = some b) ∧ x = name := by
  cases v <;> simp

theorem turnstileToken_not_serialized (p : Payload) (h : p.turnstileToken = none) :
    "turnstileToken" ∉ (serializeFields p).map Prod.fst := by
  intro hmem
  simp only [serializeFields, List.map_append, List.mem_append,
    mem_entryOptStr, mem_entryOpt, h] at hmem
  simp at hmem

/-- Claim C4: whenever the handler issues the relay call, the payload it
serializes has no `turnstileToken` property — the field is deleted
unconditionally before forwarding, whether verification ran or was
skipped. -/
theorem c4_token_stripped (secret : String) (tOk : Bool)
    (relay : Payload → Except String (Nat × String)) (parses : String → Bool)
    (now : Nat) (req : Request) (st : ProxyState) (p : Payload)
    (h : (handler secret tOk relay parses now req st).relayed = some p) :
    p.turnstileToken = none ∧ "turnstileToken" ∉ (serializeFields p).map Prod.fst := by
  have hp : p.turnstileToken = none := by
    simp only [handler] at h
    repeat' split at h
    all_goals simp only [sanitizePayload] at h
    all_goals (try simp_all)
    all_goals rw [← h]
  exact ⟨hp, turnstileToken_not_serialized p hp⟩

/-- Claim C4, instantiated: a scorecard submission carrying a Turnstile
token reaches the relay with the token field absent from the serialized
payload. -/
theorem c4_token_stripped_witness :
    ({ action := some "scorecard", email := some (.vStr "x@y.zz") } : Payload).turnstileToken
        = none ∧
    "turnstileToken" ∉
      (serializeFields
        { action := some "scorecard", email := some (.vStr "x@y.zz") }).map Prod.fst :=
  c4_token_stripped "" true (fun _ => Except.ok (200, "ok")) (fun _ => true) 7
    ⟨HttpMethod.post, "8.8.8.8",
      some { action := some "scorecard", email := some (.vStr "x@y.zz"),
             turnstileToken := some "tok" }⟩
    ⟨[], []⟩ { action := some "scorecard", email := some (.vStr "x@y.zz") } (by decide)

/-- Claim C10: for a POST carrying a fresh truthy submission id, the
duplicate lookup records the id before the unknown-action check, field
validation, human verification and the relay run: whatever the outcome of
the first run, its resulting ledger holds the id with the first run's
timestamp; in particular the enumerated failures — 400 'Unknown action',
400 validation failure, 403 failed verification, 500 relay error — leave
the id recorded, and a retry with the same id inside the retention window
is answered 200 'duplicate' with no relay call, although the data was never
relayed. -/
theorem c10_ledger_not_rolled_back (secret : String) (tOk : Bool)
    (relay : Payload → Except String (Nat × String)) (parses : String → Bool)
    (now₁ now₂ : Nat) (st : ProxyState) (req : Request) (payload : Payload) (sid : String)
    (hpost : req.method = HttpMethod.post)
    (hrate1 : (checkRateLimit (clientIp req.xForwardedFor) now₁ st.rateLimitMap).fst = true)
    (hbody : req.body = some payload)
    (hact : jsTruthyOptStr payload.action = true)
    (hsub : payload.submission_id = some sid) (hsid : sid ≠ "")
    (hfresh : (purgeDedup now₁ st.recentSubmissions).lookup sid = none)
    (hnow : now₁ ≠ 0) (hwin : now₂ - now₁ ≤ DEDUP_WINDOW)
    (hrate2 : (checkRateLimit (clientIp req.xForwardedFor) now₂
      (checkRateLimit (clientIp req.xForwardedFor) now₁ st.rateLimitMap).snd).fst = true) :
    (handler secret tOk relay parses now₁ req st).state =
      ⟨(checkRateLimit (clientIp req.xForwardedFor) now₁ st.rateLimitMap).snd,
        setKey sid now₁ (purgeDedup now₁ st.recentSubmissions)⟩ ∧
    (handler secret tOk relay parses now₁ req st).state.recentSubmissions.lookup sid =
      some now₁ ∧
    (actionValidation payload = none →
      handler secret tOk relay parses now₁ req st =
        ⟨400, .errorMsg "Unknown action",
          ⟨(checkRateLimit (clientIp req.xForwardedFor) now₁ st.rateLimitMap).snd,
            setKey sid now₁ (purgeDedup now₁ st.recentSubmissions)⟩, none⟩) ∧
    (∀ errs : List String, actionValidation payload = some errs → errs ≠ [] →
      handler secret tOk relay parses now₁ req st =
        ⟨400, .validationFailed errs,
          ⟨(checkRateLimit (clientIp req.xForwardedFor) now₁ st.rateLimitMap).snd,
            setKey sid now₁ (purgeDedup now₁ st.recentSubmissions)⟩, none⟩) ∧
    (payload.action = some "landing" → secret ≠ "" → tOk = false →
      actionValidation payload = some [] →
      handler secret tOk relay parses now₁ req st =
        ⟨403, .errorMsg "Bot verification failed. Please try again.",
          ⟨(checkRateLimit (clientIp req.xForwardedFor) now₁ st.rateLimitMap).snd,
            setKey sid now₁ (purgeDedup now₁ st.recentSubmissions)⟩, none⟩) ∧
    (∀ e : String, actionValidation payload = some [] →
      (payload.action = some "landing" && secret ≠ "" && !tOk) = false →
      relay (sanitizePayload payload) = Except.error e →
      handler secret tOk relay parses now₁ req st =
        ⟨500, .errorMsg "Server error",
          ⟨(checkRateLimit (clientIp req.xForwardedFor) now₁ st.rateLimitMap).snd,
            setKey sid now₁ (purgeDedup now₁ st.recentSubmissions)⟩,
          some (sanitizePayload payload)⟩) ∧
    ((handler secret tOk relay parses now₂ req
        ⟨(checkRateLimit (clientIp req.xForwardedFor) now₁ st.rateLimitMap).snd,
          setKey sid now₁ (purgeDedup now₁ st.recentSubmissions)⟩).status = 200 ∧
      (handler secret tOk relay parses now₂ req
        ⟨(checkRateLimit (clientIp req.xForwardedFor) now₁ st.rateLimitMap).snd,
          setKey sid now₁ (purgeDedup now₁ st.recentSubmissions)⟩).body = ResBody.dupBody ∧
      (handler secret tOk relay parses now₂ req
        ⟨(checkRateLimit (clientIp req.xForwardedFor) now₁ st.rateLimitMap).snd,
          setKey sid now₁ (purgeDedup now₁ st.recentSubmissions)⟩).relayed = none) := by
  have hdup1 : dupStep payload now₁ st.recentSubmissions =
      (false, setKey sid now₁ (purgeDedup now₁ st.recentSubmissions)) := by
    simp [dupStep, hsub, hsid, isDuplicate, hfresh]
  have hlook := lookup_setKey_self sid now₁ (purgeDedup now₁ st.recentSubmissions)
  have hkeep : (purgeDedup now₂
      (setKey sid now₁ (purgeDedup now₁ st.recentSubmissions))).lookup sid = some now₁ := by
    apply lookup_filter_keep _ _ _ _ hlook
    simp [hwin]
  have hdup2 : dupStep payload now₂ (setKey sid now₁ (purgeDedup now₁ st.recentSubmissions)) =
      (true, purgeDedup now₂ (setKey sid now₁ (purgeDedup now₁ st.recentSubmissions))) := by
    simp [dupStep, hsub, hsid, isDuplicate, hkeep, hnow]
  have hstate : (handler secret tOk relay parses now₁ req st).state =
      ⟨(checkRateLimit (clientIp req.xForwardedFor) now₁ st.rateLimitMap).snd,
        setKey sid now₁ (purgeDedup now₁ st.recentSubmissions)⟩ := by
    simp only [handler, hpost, hrate1, hbody, hact, hdup1]
    repeat' split
    all_goals simp_all
  refine ⟨hstate, ?_, ?_, ?_, ?_, ?_, ?_, ?_, ?_⟩
  · rw [hstate]
    exact hlook
  · intro hval
    simp [handler, hpost, hrate1, hbody, hact, hdup1, hval]
  · intro errs hval herrs
    have hlen : 0 < errs.length := List.length_pos.mpr herrs
    simp [handler, hpost, hrate1, hbody, hact, hdup1, hval, hlen]
  · intro ha hs ht hval
    simp [handler, hpost, hrate1, hbody, hact, hdup1, hval, ha, hs, ht, jsTruthyOptStr]
  · intro e hval hturn hrel
    simp [handler, hpost, hrate1, hbody, hact, hdup1, hval, hrel]
    intro ha hs
    simp [ha, hs] at hturn
    exact hturn
  all_goals simp [handler, hpost, hrate2, hbody, hact, hdup2]

/-- Claim C10, instantiated: a scorecard submission with a fresh id and an
out-of-range exit score fails validation with 400 at time 50 yet records the
id; the identical retry at time 100 is answered 200 'duplicate' with no
relay call. -/
theorem c10_ledger_not_rolled_back_witness :
    handler "" true (fun _ => Except.ok (200, "ok")) (fun _ => true) 50
        ⟨HttpMethod.post, "7.7.7.7",
          some { action := some "scorecard", submission_id := some "s1",
                 exit_score := some (.vNum 150) }⟩ ⟨[], []⟩ =
      ⟨400, .validationFailed ["invalid score"],
        ⟨[("7.7.7.7", ⟨1, 60050⟩)], [("s1", 50)]⟩, none⟩ ∧
    (handler "" true (fun _ => Except.ok (200, "ok")) (fun _ => true) 100
        ⟨HttpMethod.post, "7.7.7.7",
          some { action := some "scorecard", submission_id := some "s1",
                 exit_score := some (.vNum 150) }⟩
        ⟨[("7.7.7.7", ⟨1, 60050⟩)], [("s1", 50)]⟩).status = 200 ∧
    (handler "" true (fun _ => Except.ok (200, "ok")) (fun _ => true) 100
        ⟨HttpMethod.post, "7.7.7.7",
          some { action := some "scorecard", submission_id := some "s1",
                 exit_score := some (.vNum 150) }⟩
        ⟨[("7.7.7.7", ⟨1, 60050⟩)], [("s1", 50)]⟩).body = ResBody.dupBody ∧
    (handler "" true (fun _ => Except.ok (200, "ok")) (fun _ => true) 100
        ⟨HttpMethod.post, "7.7.7.7",
          some { action := some "scorecard", submission_id := some "s1",
                 exit_score := some (.vNum 150) }⟩
        ⟨[("7.7.7.7", ⟨1, 60050⟩)], [("s1", 50)]⟩).relayed = none := by
  have h := c10_ledger_not_rolled_back "" true (fun _ => Except.ok (200, "ok")) (fun _ => true)
    50 100 ⟨[], []⟩
    ⟨HttpMethod.post, "7.7.7.7",
      some { action := some "scorecard", submission_id := some "s1",
             exit_score := some (.vNum 150) }⟩
    { action := some "scorecard", submission_id := some "s1",
      exit_score := some (.vNum 150) } "s1"
    rfl (by decide) rfl (by decide) rfl (by decide) (by decide) (by decide) (by decide)
    (by decide)
  refine ⟨?_, h.2.2.2.2.2.2.1, h.2.2.2.2.2.2.2.1, h.2.2.2.2.2.2.2.2⟩
  have h4 := h.2.2.2.1 ["invalid score"] (by decide) (by decide)
  rw [h4]
  decide
/-- Claim C3, counterexample: a POST whose action value is unrecognized but
whose submission_id is already in the deduplication ledger is answered
HTTP 200 with the duplicate body — not 400 — because the duplicate check
runs before the unknown-action check. -/
theorem c3_unknown_action_counterexample :
    (handler "" true (fun _ => Except.ok (200, "x")) (fun _ => true) 2000
      ⟨HttpMethod.post, "1.2.3.4",
        some { action := some "bogus", submission_id := some "dup1" }⟩
      ⟨[], [("dup1", 1000)]⟩).status = 200 ∧
    (handler "" true (fun _ => Except.ok (200, "x")) (fun _ => true) 2000
      ⟨HttpMethod.post, "1.2.3.4",
        some { action := some "bogus", submission_id := some "dup1" }⟩
      ⟨[], [("dup1", 1000)]⟩).body = ResBody.dupBody := by
  exact ⟨by decide, by decide⟩

/-- Claim C3 (amended): for a POST the limiter admits — a missing body or a
falsy action yields 400 'Missing payload or action' with no relay call; an
unrecognized action yields 400 'Unknown action' with no relay call provided
the payload's submission_id (if any) is not a recorded duplicate; when it is
a recorded duplicate the reply is 200 'duplicate', still with no relay
call. -/
theorem c3_bad_action_rejected (secret : String) (tOk : Bool)
    (relay : Payload → Except String (Nat × String)) (parses : String → Bool)
    (now : Nat) (req : Request) (st : ProxyState)
    (hpost : req.method = HttpMethod.post)
    (hrate : (checkRateLimit (clientIp req.xForwardedFor) now st.rateLimitMap).fst = true) :
    (req.body = none →
      handler secret tOk relay parses now req st =
        ⟨400, .errorMsg "Missing payload or action",
          ⟨(checkRateLimit (clientIp req.xForwardedFor) now st.rateLimitMap).snd,
            st.recentSubmissions⟩, none⟩) ∧
    (∀ payload : Payload, req.body = some payload →
      jsTruthyOptStr payload.action = false →
      handler secret tOk relay parses now req st =
        ⟨400, .errorMsg "Missing payload or action",
          ⟨(checkRateLimit (clientIp req.xForwardedFor) now st.rateLimitMap).snd,
            st.recentSubmissions⟩, none⟩) ∧
    (∀ payload : Payload, req.body = some payload →
      jsTruthyOptStr payload.action = true →
      (dupStep payload now st.recentSubmissions).fst = false →
      actionValidation payload = none →
      handler secret tOk relay parses now req st =
        ⟨400, .errorMsg "Unknown action",
          ⟨(checkRateLimit (clientIp req.xForwardedFor) now st.rateLimitMap).snd,
            (dupStep payload now st.recentSubmissions).snd⟩, none⟩) ∧
    (∀ payload : Payload, req.body = some payload →
      jsTruthyOptStr payload.action = true →
      (dupStep payload now st.recentSubmissions).fst = true →
      handler secret tOk relay parses now req st =
        ⟨200, .dupBody,
          ⟨(checkRateLimit (clientIp req.xForwardedFor) now st.rateLimitMap).snd,
            (dupStep payload now st.recentSubmissions).snd⟩, none⟩) := by
  refine ⟨?_, ?_, ?_, ?_⟩
  · intro hbody
    simp [handler, hpost, hrate, hbody]
  · intro payload hbody hact
    simp [handler, hpost, hrate, hbody, hact]
  · intro payload hbody hact hdup hval
    simp [handler, hpost, hrate, hbody, hact, hdup, hval]
  · intro payload hbody hact hdup
    simp [handler, hpost, hrate, hbody, hact, hdup]

/-- Claim C3 (amended), instantiated: a body-less POST and an unknown-action
POST with a fresh submission_id are both answered 400 with no relay call. -/
theorem c3_bad_action_rejected_witness :
    (handler "" true (fun _ => Except.ok (200, "x")) (fun _ => true) 3
        ⟨HttpMethod.post, "2.2.2.2", none⟩ ⟨[], []⟩).status = 400 ∧
    (handler "" true (fun _ => Except.ok (200, "x")) (fun _ => true) 3
        ⟨HttpMethod.post, "2.2.2.2", none⟩ ⟨[], []⟩).relayed = none ∧
    (handler "" true (fun _ => Except.ok (200, "x")) (fun _ => true) 3
        ⟨HttpMethod.post, "3.3.3.3", some { action := some "other", submission_id := some "n1" }⟩
        ⟨[], []⟩).status = 400 ∧
    (handler "" true (fun _ => Except.ok (200, "x")) (fun _ => true) 3
        ⟨HttpMethod.post, "3.3.3.3", some { action := some "other", submission_id := some "n1" }⟩
        ⟨[], []⟩).relayed = none := by
  have h₁ := (c3_bad_action_rejected "" true (fun _ => Except.ok (200, "x")) (fun _ => true) 3
    ⟨HttpMethod.post, "2.2.2.2", none⟩ ⟨[], []⟩ rfl (by decide)).1 rfl
  have h₂ := (c3_bad_action_rejected "" true (fun _ => Except.ok (200, "x")) (fun _ => true) 3
    ⟨HttpMethod.post, "3.3.3.3", some { action := some "other", submission_id := some "n1" }⟩
    ⟨[], []⟩ rfl (by decide)).2.2.1
    { action := some "other", submission_id := some "n1" } rfl (by decide) (by decide) (by decide)
  rw [h₁, h₂]
  exact ⟨rfl, rfl, rfl, rfl⟩

/-- Claim C5, counterexample: a scorecard payload whose segment is present
as the empty string — which is not one of A, B, C, D, F — passes validation
with an empty violation list, because the code guards the segment check with
JS truthiness. -/
theorem c5_segment_counterexample :
    ({ segment := some (.vStr "") } : Payload).segment = some (.vStr "") ∧
    isKnownSegment (.vStr "") = false ∧
    validateScorecardPayload { segment := some (.vStr "") } = [] :=
  ⟨rfl, by decide, by decide⟩

/-- Claim C5 (amended): `validateScorecardPayload` reports a violation when
`exit_score` is present and does not coerce to a number in `[0, 100]`, when
any pillar-score field is present and does not coerce to a number in
`[0, 20]`, and when `segment` is present, truthy (in particular a non-empty
string) and not one of A, B, C, D, F; `exit_score` 150 fails and the
claim's passing example validates to the empty list. -/
theorem c5_scorecard_ranges (p : Payload) :
    (∀ v : JsValue, p.exit_score = some v →
      (toNumber v = none ∨ ∃ q, toNumber v = some q ∧ (q < 0 ∨ 100 < q)) →
      "invalid score" ∈ validateScorecardPayload p) ∧
    (∀ (name : String) (v : JsValue), name ∈ pillarNames → getField p name = some v →
      (toNumber v = none ∨ ∃ q, toNumber v = some q ∧ (q < 0 ∨ 20 < q)) →
      ("invalid " ++ name) ∈ validateScorecardPayload p) ∧
    (∀ v : JsValue, p.segment = some v → jsTruthy v = true → isKnownSegment v = false →
      "invalid segment" ∈ validateScorecardPayload p) ∧
    validateScorecardPayload { exit_score := some (.vNum 150) } ≠ [] ∧
    validateScorecardPayload
      { exit_score := some (.vNum 75), pillar_revenue := some (.vNum 15),
        pillar_moat := some (.vNum 0), pillar_economics := some (.vNum 20),
        pillar_leverage := some (.vNum 10), pillar_governance := some (.vNum 5),
        segment := some (.vStr "B") } = [] := by
  refine ⟨?_, ?_, ?_, by decide, by decide⟩
  · intro v hv hbad
    have hs : scoreErrors p = ["invalid score"] := by
      rcases hbad with hn | ⟨q, hq, hlt | hgt⟩
      · simp [scoreErrors, hv, hn]
      · simp [scoreErrors, hv, hq, hlt]
      · simp [scoreErrors, hv, hq, hgt]
    simp [validateScorecardPayload, hs, List.mem_append]
  · intro name v hname hv hbad
    have hperr : pillarErr p name = ["invalid " ++ name] := by
      rcases hbad with hn | ⟨q, hq, hlt | hgt⟩
      · simp [pillarErr, hv, hn]
      · simp [pillarErr, hv, hq, hlt]
      · simp [pillarErr, hv, hq, hgt]
    have hmem : ("invalid " ++ name) ∈ pillarErrors p :=
      (mem_foldr_append (pillarErr p) ("invalid " ++ name) pillarNames).mpr
        ⟨name, hname, by simp [hperr]⟩
    simp [validateScorecardPayload, List.mem_append, hmem]
  · intro v hv htr hseg
    have hs : segmentErrors p = ["invalid segment"] := by
      simp [segmentErrors, hv, htr, hseg]
    simp [validateScorecardPayload, hs, List.mem_append]

/-- Claim C5 (amended), instantiated: an out-of-range pillar score and an
unknown non-empty segment are both reported as violations. -/
theorem c5_scorecard_ranges_witness :
    "invalid pillar_moat" ∈
      validateScorecardPayload { pillar_moat := some (.vNum 21) } ∧
    "invalid segment" ∈
      validateScorecardPayload { segment := some (.vStr "Z") } := by
  constructor
  · exact (c5_scorecard_ranges { pillar_moat := some (.vNum 21) }).2.1 "pillar_moat"
      (.vNum 21) (by decide) rfl (Or.inr ⟨21, rfl, Or.inr (by norm_num)⟩)
  · exact (c5_scorecard_ranges { segment := some (.vStr "Z") }).2.2.1 (.vStr "Z")
      rfl (by decide) (by decide)

/-- Claim C6, counterexample: a scorecard payload whose email is present but
not a string (the number 42) yields the empty violation list — the code only
length-checks emails that are truthy strings. -/
theorem c6_email_counterexample :
    ({ email := some (.vNum 42) } : Payload).email = some (.vNum 42) ∧
    (match JsValue.vNum 42 with | .vStr _ => true | _ => false) = false ∧
    validateScorecardPayload { email := some (.vNum 42) } = [] :=
  ⟨rfl, rfl, by decide⟩

/-- Claim C6 (amended): on a scorecard payload only a present email that is
a string longer than 254 characters is flagged ('email too long'); a present
email that is not a string is not flagged at all. -/
theorem c6_scorecard_email (p : Payload) :
    (∀ s : String, p.email = some (.vStr s) → 254 < s.length →
      "email too long" ∈ validateScorecardPayload p) ∧
    (∀ v : JsValue, (∀ s : String, v ≠ .vStr s) →
      validateScorecardPayload { email := some v } = []) := by
  constructor
  · intro s hv hlen
    have hne : s ≠ "" := by
      intro h
      subst h
      simp at hlen
    have he : scorecardEmailErrors p = ["email too long"] := by
      simp [scorecardEmailErrors, hv, hne, hlen]
    simp [validateScorecardPayload, he, List.mem_append]
  · intro v hv
    cases v with
    | vStr s => exact absurd rfl (hv s)
    | vNum q =>
      simp [validateScorecardPayload, scorecardEmailErrors, scoreErrors, pillarErrors,
        pillarErr, segmentErrors, stringFieldErrors, strFieldErr, getField, pillarNames,
        scorecardStringFieldNames]
    | vBool b => cases b <;> decide
    | vNull => decide

/-- Claim C6 (amended), instantiated: a 255-character email string is
flagged, and a boolean email is not flagged. -/
theorem c6_scorecard_email_witness :
    "email too long" ∈ validateScorecardPayload
      { email := some (.vStr (String.mk (List.replicate 255 'a'))) } ∧
    validateScorecardPayload { email := some (.vBool true) } = [] := by
  constructor
  · exact (c6_scorecard_email
      { email := some (.vStr (String.mk (List.replicate 255 'a'))) }).1
      (String.mk (List.replicate 255 'a')) rfl (by decide)
  · exact (c6_scorecard_email { email := some (.vBool true) }).2 (.vBool true)
      (fun s => by simp)

theorem httpsGet_no_redirect (server : String → RelayResponse) (url : String) (n : Nat)
    (h : wantsRedirect (server url) = false) :
    httpsGet server url n = Except.ok ((server url).statusCode, (server url).body) := by
  rw [httpsGet]
  cases hl : (server url).location with
  | none => simp
  | some loc =>
    simp only [wantsRedirect, hl, Bool.and_eq_false_iff] at h
    rcases h with h | h
    · simp [h]
    · simp only [ne_eq, Bool.not_eq_true] at h
      simp [h]

theorem httpsGet_exhausted (server : String → RelayResponse) (url : String) (loc : String)
    (hl : (server url).location = some loc)
    (hred : isRedirectStatus (server url).statusCode = true) (hne : loc ≠ "") :
    httpsGet server url 0 = Except.error "Too many redirects" := by
  rw [httpsGet]
  simp [hl, hred, hne]

theorem httpsGet_step (server : String → RelayResponse) (url : String) (loc : String) (n : Nat)
    (hl : (server url).location = some loc)
    (hred : isRedirectStatus (server url).statusCode = true) (hne : loc ≠ "") :
    httpsGet server url (n + 1) = httpsGet server (resolveLoc (parseUrl url) loc) n := by
  conv_lhs => rw [httpsGet]
  simp [hl, hred, hne]

/-- Claim C8: `httpsGet` defaults its budget to 5; a response that is not a
redirect (status outside 301/302/303/307, no Location, or an empty one)
resolves with the body and status verbatim at any budget; a redirect met with
the budget exhausted rejects with 'Too many redirects'; a redirect with
budget left recurses on the resolved location (leading-slash locations
resolved against the current scheme and host) with the budget decremented;
and against a server that always redirects every budget terminates in the
'Too many redirects' rejection — there is no unbounded loop. -/
theorem c8_redirect_following (server : String → RelayResponse) :
    (∀ url, httpsGet server url = httpsGet server url 5) ∧
    (∀ (url : String) (n : Nat), wantsRedirect (server url) = false →
      httpsGet server url n = Except.ok ((server url).statusCode, (server url).body)) ∧
    (∀ (url loc : String), (server url).location = some loc →
      isRedirectStatus (server url).statusCode = true → loc ≠ "" →
      httpsGet server url 0 = Except.error "Too many redirects") ∧
    (∀ (url loc : String) (n : Nat), (server url).location = some loc →
      isRedirectStatus (server url).statusCode = true → loc ≠ "" →
      httpsGet server url (n + 1) = httpsGet server (resolveLoc (parseUrl url) loc) n) ∧
    ((∀ u, wantsRedirect (server u) = true) →
      ∀ (n : Nat) (url : String), httpsGet server url n = Except.error "Too many redirects") := by
  refine ⟨fun url => rfl, httpsGet_no_redirect server, httpsGet_exhausted server,
    fun url loc n => httpsGet_step server url loc n, ?_⟩
  intro hall n
  induction n with
  | zero =>
    intro url
    have h := hall url
    cases hl : (server url).location with
    | none => simp [wantsRedirect, hl] at h
    | some loc =>
      simp only [wantsRedirect, hl, Bool.and_eq_true] at h
      exact httpsGet_exhausted server url loc hl h.1 (by simpa using h.2)
  | succ n ih =>
    intro url
    have h := hall url
    cases hl : (server url).location with
    | none => simp [wantsRedirect, hl] at h
    | some loc =>
      simp only [wantsRedirect, hl, Bool.and_eq_true] at h
      rw [httpsGet_step server url loc n hl h.1 (by simpa using h.2)]
      exact ih (resolveLoc (parseUrl url) loc)

/-- Claim C8, instantiated: an endlessly redirecting server makes the
default-budget call reject with 'Too many redirects', a leading-slash hop is
resolved against the current scheme and host, and a plain 200 resolves
verbatim. -/
theorem c8_redirect_following_witness :
    httpsGet (fun _ => ⟨301, some "/loop", ""⟩) "https://a.com/x" =
      Except.error "Too many redirects" ∧
    httpsGet (fun _ => ⟨301, some "/hop", "b"⟩) "https://a.com/x" 3 =
      httpsGet (fun _ => ⟨301, some "/hop", "b"⟩) "https://a.com/hop" 2 ∧
    httpsGet (fun _ => ⟨200, none, "done"⟩) "https://a.com/x" 5 =
      Except.ok (200, "done") := by
  refine ⟨?_, ?_, ?_⟩
  · exact (c8_redirect_following (fun _ => ⟨301, some "/loop", ""⟩)).2.2.2.2
      (fun u => by decide) 5 "https://a.com/x"
  · have h := (c8_redirect_following (fun _ => ⟨301, some "/hop", "b"⟩)).2.2.2.1
      "https://a.com/x" "/hop" 2 rfl (by decide) (by decide)
    rw [h]
    rfl
  · exact (c8_redirect_following (fun _ => ⟨200, none, "done"⟩)).2.1
      "https://a.com/x" 5 (by decide)

/-- Claim C9: when a request reaches the relay and the downstream body does
not parse as JSON, the handler replies HTTP 200 — never 500 — with the
configuration-error body if the body carries the 'accounts.google.com'
marker, and otherwise with the forwarded body carrying the observed
downstream status code. -/
theorem c9_response_translation (secret : String) (tOk : Bool)
    (relay : Payload → Except String (Nat × String)) (parses : String → Bool)
    (now : Nat) (req : Request) (st : ProxyState) (payload : Payload)
    (sc : Nat) (body : String)
    (hpost : req.method = HttpMethod.post)
    (hrate : (checkRateLimit (clientIp req.xForwardedFor) now st.rateLimitMap).fst = true)
    (hbody : req.body = some payload)
    (hact : jsTruthyOptStr payload.action = true)
    (hdup : (dupStep payload now st.recentSubmissions).fst = false)
    (hval : actionValidation payload = some [])
    (hturn : (payload.action = some "landing" && secret ≠ "" && !tOk) = false)
    (hrelay : relay (sanitizePayload payload) = Except.ok (sc, body))
    (hparse : parses body = false) :
    (containsMarker body = true →
      handler secret tOk relay parses now req st =
        ⟨200, .configErrorBody,
          ⟨(checkRateLimit (clientIp req.xForwardedFor) now st.rateLimitMap).snd,
            (dupStep payload now st.recentSubmissions).snd⟩, some (sanitizePayload payload)⟩) ∧
    (containsMarker body = false →
      handler secret tOk relay parses now req st =
        ⟨200, .forwardedBody sc,
          ⟨(checkRateLimit (clientIp req.xForwardedFor) now st.rateLimitMap).snd,
            (dupStep payload now st.recentSubmissions).snd⟩, some (sanitizePayload payload)⟩) := by
  constructor <;> intro hm <;>
    (simp [handler, hpost, hrate, hbody, hact, hdup, hval, hrelay, hparse, hm]
     intro ha hs
     simp [ha, hs] at hturn
     exact hturn)

/-- Claim C9, instantiated: an unparseable sign-in page body yields 200 with
the configuration-error result; an unparseable plain body yields 200 with
the forwarded result carrying the downstream 404. -/
theorem c9_response_translation_witness :
    handler "" true (fun _ => Except.ok (302, "page accounts.google.com login"))
        (fun _ => false) 5
        ⟨HttpMethod.post, "9.9.9.9", some { action := some "scorecard" }⟩ ⟨[], []⟩ =
      ⟨200, .configErrorBody, ⟨[("9.9.9.9", ⟨1, 60005⟩)], []⟩,
        some { action := some "scorecard" }⟩ ∧
    handler "" true (fun _ => Except.ok (404, "plain")) (fun _ => false) 5
        ⟨HttpMethod.post, "9.9.9.9", some { action := some "scorecard" }⟩ ⟨[], []⟩ =
      ⟨200, .forwardedBody 404, ⟨[("9.9.9.9", ⟨1, 60005⟩)], []⟩,
        some { action := some "scorecard" }⟩ := by
  constructor
  · have h := (c9_response_translation "" true
      (fun _ => Except.ok (302, "page accounts.google.com login")) (fun _ => false) 5
      ⟨HttpMethod.post, "9.9.9.9", some { action := some "scorecard" }⟩ ⟨[], []⟩
      { action := some "scorecard" } 302 "page accounts.google.com login"
      rfl (by decide) rfl (by decide) (by decide) (by decide) (by decide) rfl rfl).1 (by decide)
    rw [h]
    decide
  · have h := (c9_response_translation "" true
      (fun _ => Except.ok (404, "plain")) (fun _ => false) 5
      ⟨HttpMethod.post, "9.9.9.9", some { action := some "scorecard" }⟩ ⟨[], []⟩
      { action := some "scorecard" } 404 "plain"
      rfl (by decide) rfl (by decide) (by decide) (by decide) (by decide) rfl rfl).2 (by decide)
    rw [h]
    decide

end SubmitProxy
